import Mathlib

/-!
Verification of the pydemic library against its specification.

Each Python function relevant to the checked properties is shallowly
embedded as a Lean definition: numpy arrays become lists of rationals
(or reals, where transcendental functions are involved), Python
exceptions become `Except String` results, and the float value
negative infinity becomes the bottom element of `WithBot`.
-/

/- ## Restricted-key records (pydemic/__init__.py, AttrDict) -/

/-- `AttrDict.__init__`: raises `ValueError` unless
`self.expected_kwargs.issubset(set(kwargs.keys()))`; on success the
instance holds exactly the supplied key/value pairs and, because of
`self.__dict__ = self`, attribute access coincides with item access. -/
def attrDictInit (expected : List String) (kwargs : List (String × ℚ)) :
    Except String (List (String × ℚ)) :=
  if expected.all (fun k => (kwargs.map Prod.fst).contains k) then
    Except.ok kwargs
  else
    Except.error "ValueError"

/-- Mapping (`__getitem__`) access on a constructed `AttrDict`. -/
def attrDictGetItem (d : List (String × ℚ)) (k : String) : Option ℚ :=
  (d.find? (fun kv => kv.fst = k)).map Prod.snd

/-- Attribute access on a constructed `AttrDict`: `self.__dict__ = self`
makes it identical to item access. -/
def attrDictGetAttr (d : List (String × ℚ)) (k : String) : Option ℚ :=
  attrDictGetItem d k

/-- `AgeDistribution.expected_kwargs`. -/
def ageDistributionExpected : List String := ["bin_edges", "counts"]

/- ## The pydemic.sampling module namespace (pydemic/sampling.py) -/

/-- The names bound at module level in `pydemic/sampling.py`. -/
def samplingModuleNames : List String :=
  ["__copyright__", "__license__", "np",
   "SampleParameter", "l2_log_norm", "LikelihoodEstimatorBase"]

/-- `from <module> import <name>`: succeeds iff the module binds the name. -/
def importFrom (moduleNames : List String) (n : String) : Except String Unit :=
  if moduleNames.contains n then Except.ok ()
  else Except.error ("ImportError: cannot import name " ++ n)

/-- The error message produced by the failing import in seirpp.py. -/
def importInvalidParametersErrorMsg : String :=
  "ImportError: cannot import name InvalidParametersError"

/- ## get_model_data time-floor validation (models/seirpp.py, lines 217-230) -/

/-- The message of the time-floor `InvalidParametersError` in
`get_model_data`. -/
def timeFloorMsg : String :=
  "Must start simulation at least one day before result evaluation."

/-- The guard `if (t_eval < t0 + 1).any(): raise InvalidParametersError(...)`
from `NonMarkovianSEIRSimulationBase.get_model_data`, taken in isolation
(with the exception class resolved). -/
def getModelDataTimeCheck (tEval : List ℚ) (t0 : ℚ) : Except String Unit :=
  if tEval.any (fun t => t < t0 + 1) then Except.error timeFloorMsg
  else Except.ok ()

/-- The validation stage of `get_model_data` as the code actually executes:
`from pydemic.sampling import InvalidParametersError` runs first (line 225)
and only then is the time-floor guard reached (line 227). -/
def getModelDataTimeStage (tEval : List ℚ) (t0 : ℚ) : Except String Unit :=
  match importFrom samplingModuleNames "InvalidParametersError" with
  | Except.error e => Except.error e
  | Except.ok _ => getModelDataTimeCheck tEval t0

/- ## SEIRPlusPlusSimulation.__init__ (models/seirpp.py, lines 384-411) -/

/-- Elementwise product of two numpy arrays of equal shape. -/
def elemMul (a b : List ℚ) : List ℚ := List.zipWith (· * ·) a b

/-- `p_dead_net = p_symptomatic * p_hospitalized * p_critical * p_dead
* all_dead_multiplier` (the last factor is a scalar). -/
def pDeadNet (pS pH pC pD : List ℚ) (m : ℚ) : List ℚ :=
  (elemMul (elemMul (elemMul pS pH) pC) pD).map (· * m)

/-- `weighted_sum = (p_dead_net * age_distribution).sum()`. -/
def ifrWeightedSum (ad pS pH pC pD : List ℚ) (m : ℚ) : ℚ :=
  (elemMul (pDeadNet pS pH pC pD m) ad).sum

/-- The IFR back-solve: if `ifr` is given,
`p_symptomatic *= ifr / weighted_sum`; otherwise `p_symptomatic` is kept. -/
def ifrRescale (ifr : Option ℚ) (ad pS pH pC pD : List ℚ) (m : ℚ) : List ℚ :=
  match ifr with
  | none => pS
  | some v => pS.map (· * (v / ifrWeightedSum ad pS pH pC pD m))

/-- The cascade validation loop of `SEIRPlusPlusSimulation.__init__`:
`p_progression` starts at `age_distribution` and is multiplied through
`p_symptomatic`, `p_hospitalized`, `p_critical`, `p_dead` in order; the
first stage whose sum exceeds the previous stage's sum is reported. -/
def cascadeCheck (ad pS pH pC pD : List ℚ) : Except String Unit :=
  if ad.sum < (elemMul ad pS).sum then
    Except.error "p_symptomatic is too large"
  else if (elemMul ad pS).sum < (elemMul (elemMul ad pS) pH).sum then
    Except.error "p_hospitalized is too large"
  else if (elemMul (elemMul ad pS) pH).sum
      < (elemMul (elemMul (elemMul ad pS) pH) pC).sum then
    Except.error "p_critical is too large"
  else if (elemMul (elemMul (elemMul ad pS) pH) pC).sum
      < (elemMul (elemMul (elemMul (elemMul ad pS) pH) pC) pD).sum then
    Except.error "p_dead is too large"
  else Except.ok ()

/-- The probability-processing part of `SEIRPlusPlusSimulation.__init__`
with the exception class resolved: rescale by `ifr` (lines 393-399), then
run the cascade validation (lines 404-411), returning the rescaled
`p_symptomatic` on success. -/
def seirppInitProbabilities (ad pS pH pC pD : List ℚ) (m : ℚ)
    (ifr : Option ℚ) : Except String (List ℚ) :=
  let pS2 := ifrRescale ifr ad pS pH pC pD m
  match cascadeCheck ad pS2 pH pC pD with
  | Except.ok _ => Except.ok pS2
  | Except.error e => Except.error e

/-- `SEIRPlusPlusSimulation.__init__` as the code actually executes: the
IFR rescale (lines 393-399) runs first, then
`from pydemic.sampling import InvalidParametersError` (line 402), and only
then the cascade validation. -/
def seirppInitFull (ad pS pH pC pD : List ℚ) (m : ℚ)
    (ifr : Option ℚ) : Except String (List ℚ) :=
  let pS2 := ifrRescale ifr ad pS pH pC pD m
  match importFrom samplingModuleNames "InvalidParametersError" with
  | Except.error e => Except.error e
  | Except.ok _ =>
    match cascadeCheck ad pS2 pH pC pD with
    | Except.ok _ => Except.ok pS2
    | Except.error e => Except.error e

/- ## SampleParameter and LikelihoodEstimatorBase (pydemic/sampling.py) -/

/-- `SampleParameter.__init__` stores exactly `name`, `bounds`, `guess`,
`uncertainty`; `guess` and `uncertainty` may be Python `None` (`none`). -/
structure SampleParameter where
  name : String
  bounds : ℚ × ℚ
  guess : Option ℚ
  uncertainty : Option ℚ
deriving DecidableEq, Repr

/-- `LikelihoodEstimatorBase.check_within_bounds`: every component of
`theta`, zipped against the fit parameters, must satisfy
`bounds[0] <= value <= bounds[1]`. -/
def checkWithinBounds (ps : List SampleParameter) (theta : List ℚ) : Bool :=
  (ps.zip theta).all
    (fun pv => decide (pv.1.bounds.1 ≤ pv.2 ∧ pv.2 ≤ pv.1.bounds.2))

/-- `LikelihoodEstimatorBase.__call__`: returns `-np.inf` (modelled as
`⊥` in `WithBot ℚ`) when the bounds check fails, and otherwise delegates
to `get_log_likelihood` on `dict(zip(self.fit_names, theta))`. -/
def likelihoodCall (ps : List SampleParameter)
    (getLogLikelihood : List (String × ℚ) → ℚ) (theta : List ℚ) : WithBot ℚ :=
  if checkWithinBounds ps theta then
    ((getLogLikelihood ((ps.map SampleParameter.name).zip theta) : ℚ) : WithBot ℚ)
  else ⊥

/- ## Seasonal forcing and the renewal-equation step
(models/seirpp.py, lines 55-57 and 90-103) -/

/-- `NonMarkovianSEIRSimulationBase.seasonal_forcing`:
`1 + seasonal_forcing_amp * cos(2 * pi * (t - peak_day) / 365)`. -/
noncomputable def seasonal_forcing (amp peakDay t : ℝ) : ℝ :=
  1 + amp * Real.cos (2 * Real.pi * (t - peakDay) / 365)

/-- `np.dot` of two one-dimensional arrays. -/
noncomputable def npDot (a b : List ℝ) : ℝ := (List.zipWith (· * ·) a b).sum

/-- The new-infection vector computed by one invocation of
`NonMarkovianSEIRSimulationBase.step`:
`Rt = r0 * mitigation(t) * seasonal_forcing(t)`;
`j_m` is, per age group, the infection history up to `count - 1`
reversed in time dotted with `serial_pdf[:count]`; `j_i = j_m.sum()`;
`new_infected_i = dt * Rt * S_i * j_i / total_population` where `S_i`
is the susceptible vector at index `count - 1`. -/
noncomputable def stepNewInfected (r0 : ℝ) (mitigation : ℝ → ℝ)
    (amp peakDay : ℝ) (serialPdf : List ℝ) (totalPopulation : ℝ)
    (infectedHist : List (List ℝ)) (susPrev : List ℝ) (t : ℝ)
    (count : ℕ) (dt : ℝ) : List ℝ :=
  let Rt := r0 * mitigation t * seasonal_forcing amp peakDay t
  let jI := (infectedHist.map
    (fun h => npDot ((h.take count).reverse) (serialPdf.take count))).sum
  susPrev.map (fun s => dt * Rt * s * jI / totalPopulation)

/-- The susceptible vector written by one invocation of `step`:
`susceptible[..., count] = susceptible[..., count-1] - new_infected_i`. -/
noncomputable def stepNewSusceptible (r0 : ℝ) (mitigation : ℝ → ℝ)
    (amp peakDay : ℝ) (serialPdf : List ℝ) (totalPopulation : ℝ)
    (infectedHist : List (List ℝ)) (susPrev : List ℝ) (t : ℝ)
    (count : ℕ) (dt : ℝ) : List ℝ :=
  List.zipWith (· - ·) susPrev
    (stepNewInfected r0 mitigation amp peakDay serialPdf totalPopulation
      infectedHist susPrev t count dt)

/- ## The default comparison norm (pydemic/sampling.py, lines 37-38) -/

/-- `l2_log_norm(a, b) = -1/2 * np.sum(np.power(np.log(a) - np.log(b), 2.))`. -/
noncomputable def l2_log_norm (a b : List ℝ) : ℝ :=
  -(1/2) * ((List.zipWith (fun x y => (Real.log x - Real.log y)^2) a b).sum)

/- ## The persistence backend (pydemic/hdf.py) -/

/-- A Python float cell as stored in the HDF file: either NaN (the
absent-value sentinel) or an actual number. -/
inductive PyFloat where
  | nan : PyFloat
  | val : ℚ → PyFloat
deriving DecidableEq, Repr

/-- `nanify(x) = x if x is not None else np.nan`, applied to a
value-or-None. -/
def nanify (x : Option ℚ) : PyFloat :=
  match x with
  | none => PyFloat.nan
  | some q => PyFloat.val q

/-- `denanify(x) = x if np.isfinite(x) else None`. -/
def denanify (x : PyFloat) : Option ℚ :=
  match x with
  | PyFloat.nan => none
  | PyFloat.val q => some q

/-- A dynamically-typed Python value, as passed around by the backend. -/
inductive PyVal where
  | str : String → PyVal
  | float : PyFloat → PyVal
  | pair : ℚ → ℚ → PyVal
  | pynone : PyVal
deriving DecidableEq, Repr

/-- A value-or-None as a `PyVal`. -/
def optQToPyVal (x : Option ℚ) : PyVal :=
  match x with
  | none => PyVal.pynone
  | some q => PyVal.float (PyFloat.val q)

/-- Python attribute access on a `SampleParameter` instance: its
`__init__` sets exactly `name`, `bounds`, `guess` and `uncertainty`, so
any other attribute raises `AttributeError`. -/
def sampleParameterGetattr (p : SampleParameter) (attr : String) :
    Except String PyVal :=
  if attr = "name" then Except.ok (PyVal.str p.name)
  else if attr = "bounds" then Except.ok (PyVal.pair p.bounds.1 p.bounds.2)
  else if attr = "guess" then Except.ok (optQToPyVal p.guess)
  else if attr = "uncertainty" then Except.ok (optQToPyVal p.uncertainty)
  else Except.error ("AttributeError: " ++ attr)

/-- `nanify` as applied to the result of a successful attribute lookup
(`None` becomes NaN; a float is kept). -/
def nanifyPyVal (v : PyVal) : PyFloat :=
  match v with
  | PyVal.pynone => PyFloat.nan
  | PyVal.float f => f
  | PyVal.str _ => PyFloat.nan
  | PyVal.pair _ _ => PyFloat.nan

/-- The `fit_parameters` group of the HDF file: the five parallel arrays
written by `HDFBackend.__init__`. -/
structure FitParametersGroup where
  names : List String
  bounds : List (ℚ × ℚ)
  guess : List PyFloat
  uncertainty : List PyFloat
  sigma : List PyFloat
deriving DecidableEq, Repr

/-- The `fit_parameters` write path of `HDFBackend.__init__`: stores the
names, bounds, nanified guesses and uncertainties, and then evaluates
`nanify(par.sigma)` for each parameter — an attribute lookup that fails,
since `SampleParameter.__init__` never sets `sigma`. -/
def hdfWriteFitParameters (ps : List SampleParameter) :
    Except String FitParametersGroup :=
  match ps.mapM (fun p => sampleParameterGetattr p "sigma") with
  | Except.error e => Except.error e
  | Except.ok sigmaVals =>
    Except.ok
      ⟨ps.map SampleParameter.name,
       ps.map SampleParameter.bounds,
       ps.map (fun p => nanify p.guess),
       ps.map (fun p => nanify p.uncertainty),
       sigmaVals.map nanifyPyVal⟩

/-- The persisted calibration metadata of an `HDFBackend` file. -/
structure HDFFile where
  fixed_values : Option (List (String × ℚ))
  fit_parameters : Option FitParametersGroup
deriving DecidableEq, Repr

/-- `HDFBackend.__init__` restricted to the calibration metadata: writes
the `fixed_values` group entry by entry, then (if fit parameters are
passed) the `fit_parameters` group. -/
def hdfBackendInit (fixedValues : Option (List (String × ℚ)))
    (fitParameters : Option (List SampleParameter)) :
    Except String HDFFile :=
  match fitParameters with
  | none => Except.ok ⟨fixedValues, none⟩
  | some ps =>
    match hdfWriteFitParameters ps with
    | Except.error e => Except.error e
    | Except.ok g => Except.ok ⟨fixedValues, some g⟩

/-- A stored-or-reconstructed float argument, as `denanify` produces it. -/
def denanifyToPyVal (f : PyFloat) : PyVal :=
  match f with
  | PyFloat.nan => PyVal.pynone
  | PyFloat.val q => PyVal.float (PyFloat.val q)

/-- A Python call `SampleParameter(*args)`: `__init__` accepts exactly
four positional arguments `(name, bounds, guess, uncertainty)`; any other
argument count raises `TypeError`. -/
def sampleParameterCall (args : List PyVal) : Except String SampleParameter :=
  match args with
  | [PyVal.str name, PyVal.pair lo hi, g, u] =>
    Except.ok ⟨name, (lo, hi),
      match g with
      | PyVal.float (PyFloat.val q) => some q
      | _ => none,
      match u with
      | PyVal.float (PyFloat.val q) => some q
      | _ => none⟩
  | _ => Except.error "TypeError: SampleParameter takes 4 arguments"

/-- The `fit_parameters` read property of `HDFBackend`: for each stored
name it builds `args = [bounds[i], denanify(guess[i]),
denanify(uncertainty[i]), denanify(sigma[i])]` and calls
`SampleParameter(name, *args)` — five positional arguments. -/
def hdfReadFitParameters (g : FitParametersGroup) :
    Except String (List SampleParameter) :=
  (List.range g.names.length).mapM (fun i =>
    sampleParameterCall
      [PyVal.str (g.names.getD i ""),
       PyVal.pair (g.bounds.getD i (0, 0)).1 (g.bounds.getD i (0, 0)).2,
       denanifyToPyVal (g.guess.getD i PyFloat.nan),
       denanifyToPyVal (g.uncertainty.getD i PyFloat.nan),
       denanifyToPyVal (g.sigma.getD i PyFloat.nan)])

/- ## Theorems for claims C1 and C2 -/

/-- Claim C1 as stated is false: constructing `AgeDistribution` with the
proper subset `{bin_edges}` of its declared fields raises `ValueError`
(the claim says any subset succeeds), while supplying an unknown key
`extra` alongside both declared fields succeeds (the claim says any
out-of-set key fails). -/
theorem attrDict_subset_claim_false :
    attrDictInit ageDistributionExpected [("bin_edges", (0 : ℚ))]
      = Except.error "ValueError"
    ∧ attrDictInit ageDistributionExpected
        [("bin_edges", (0 : ℚ)), ("counts", 1), ("extra", 2)]
      = Except.ok [("bin_edges", (0 : ℚ)), ("counts", 1), ("extra", 2)] := by
  constructor <;> rfl

/-- Claim C1, amended: `AttrDict` construction succeeds iff every declared
expected keyword is among the supplied keys (so declared fields are
required, proper subsets fail with `ValueError`, and extra keys are
accepted); on success the instance holds exactly the supplied pairs, and
every key is readable as an attribute exactly as it is as a mapping
entry. -/
theorem attrDict_expected_keys_required (expected : List String)
    (kwargs : List (String × ℚ)) :
    (attrDictInit expected kwargs = Except.ok kwargs
      ↔ ∀ k ∈ expected, k ∈ kwargs.map Prod.fst)
    ∧ (¬ (∀ k ∈ expected, k ∈ kwargs.map Prod.fst) →
        attrDictInit expected kwargs = Except.error "ValueError")
    ∧ (∀ k, attrDictGetAttr kwargs k = attrDictGetItem kwargs k) := by
  have key : (expected.all (fun k => (kwargs.map Prod.fst).contains k) = true)
      ↔ (∀ k ∈ expected, k ∈ kwargs.map Prod.fst) := by
    simp [List.all_eq_true, List.contains, List.elem_iff]
  refine ⟨?_, ?_, fun k => rfl⟩
  · by_cases h : expected.all (fun k => (kwargs.map Prod.fst).contains k) = true
    · rw [attrDictInit, if_pos h]
      exact iff_of_true rfl (key.mp h)
    · rw [attrDictInit, if_neg h]
      constructor
      · intro hc
        exact absurd hc (by simp)
      · intro hc
        exact absurd (key.mpr hc) h
  · intro h
    have hb : ¬ (expected.all (fun k => (kwargs.map Prod.fst).contains k) = true) :=
      fun hc => h (key.mp hc)
    rw [attrDictInit, if_neg hb]

/-- Witness for the amended claim C1 at a concrete input: with both
declared fields supplied, `AgeDistribution` construction succeeds. -/
theorem attrDict_expected_keys_required_witness :
    attrDictInit ageDistributionExpected [("bin_edges", (0 : ℚ)), ("counts", 1)]
      = Except.ok [("bin_edges", (0 : ℚ)), ("counts", 1)] :=
  (attrDict_expected_keys_required ageDistributionExpected
    [("bin_edges", (0 : ℚ)), ("counts", 1)]).1.mpr (by decide)

/-- Claim C2: `pydemic.sampling` binds no name `InvalidParametersError`,
so both the validation stage of `get_model_data` and the construction of
`SEIRPlusPlusSimulation` fail with an import error on every input, before
any result can be returned or any InvalidParameters-kind error raised. -/
theorem sampling_missing_invalid_parameters_error :
    ("InvalidParametersError" ∉ samplingModuleNames)
    ∧ (∀ (tEval : List ℚ) (t0 : ℚ),
        getModelDataTimeStage tEval t0
          = Except.error importInvalidParametersErrorMsg)
    ∧ (∀ (ad pS pH pC pD : List ℚ) (m : ℚ) (ifr : Option ℚ),
        seirppInitFull ad pS pH pC pD m ifr
          = Except.error importInvalidParametersErrorMsg) := by
  refine ⟨by decide, fun tEval t0 => rfl, fun ad pS pH pC pD m ifr => rfl⟩

/-- Claim C4: the time-floor guard of `get_model_data` triggers exactly
when some evaluation time is earlier than `start_day + 1`; with
`start_day = 10` an evaluation time of `10.5` trips it and `11` does not.
However, as the code actually executes, the failing import of
`InvalidParametersError` (claim C2) preempts the guard, so the concrete
failing call raises an import error instead of the documented
InvalidParameters error. -/
theorem get_model_data_time_floor_check :
    (∀ (tEval : List ℚ) (t0 : ℚ),
      getModelDataTimeCheck tEval t0 = Except.error timeFloorMsg
        ↔ ∃ t ∈ tEval, t < t0 + 1)
    ∧ getModelDataTimeCheck [21/2] 10 = Except.error timeFloorMsg
    ∧ getModelDataTimeCheck [11] 10 = Except.ok ()
    ∧ getModelDataTimeStage [21/2] 10
        = Except.error importInvalidParametersErrorMsg := by
  have key : ∀ (tEval : List ℚ) (t0 : ℚ),
      getModelDataTimeCheck tEval t0 = Except.error timeFloorMsg
        ↔ ∃ t ∈ tEval, t < t0 + 1 := by
    intro tEval t0
    by_cases h : tEval.any (fun t => t < t0 + 1) = true
    · rw [getModelDataTimeCheck, if_pos h]
      simp only [List.any_eq_true, decide_eq_true_eq] at h
      exact iff_of_true rfl h
    · rw [getModelDataTimeCheck, if_neg h]
      simp only [List.any_eq_true, decide_eq_true_eq] at h
      exact iff_of_false (by simp) h
  refine ⟨key, ?_, ?_, rfl⟩
  · exact (key [21/2] 10).mpr ⟨21/2, by simp, by norm_num⟩
  · rw [getModelDataTimeCheck, if_neg (by simp; norm_num)]

/-- Claim C5: the likelihood estimator returns negative infinity exactly
when some component of `theta` lies strictly outside its parameter's
inclusive bounds, and otherwise returns `get_log_likelihood` applied to
the zip of the fit-parameter names with `theta`. -/
theorem likelihood_call_bounds_gate (ps : List SampleParameter)
    (gll : List (String × ℚ) → ℚ) (theta : List ℚ) :
    (likelihoodCall ps gll theta = ⊥
      ↔ ∃ pv ∈ ps.zip theta, pv.2 < pv.1.bounds.1 ∨ pv.1.bounds.2 < pv.2)
    ∧ ((∀ pv ∈ ps.zip theta, pv.1.bounds.1 ≤ pv.2 ∧ pv.2 ≤ pv.1.bounds.2) →
        likelihoodCall ps gll theta
          = ((gll ((ps.map SampleParameter.name).zip theta) : ℚ) : WithBot ℚ)) := by
  have key : checkWithinBounds ps theta = true
      ↔ ∀ pv ∈ ps.zip theta, pv.1.bounds.1 ≤ pv.2 ∧ pv.2 ≤ pv.1.bounds.2 := by
    simp [checkWithinBounds, List.all_eq_true]
  constructor
  · by_cases h : checkWithinBounds ps theta = true
    · rw [likelihoodCall, if_pos h]
      refine iff_of_false WithBot.coe_ne_bot ?_
      rintro ⟨pv, hmem, hviol⟩
      obtain ⟨h1, h2⟩ := key.mp h pv hmem
      rcases hviol with hv | hv
      · exact absurd h1 (not_le.mpr hv)
      · exact absurd h2 (not_le.mpr hv)
    · rw [likelihoodCall, if_neg h]
      refine iff_of_true rfl ?_
      have h2 : ¬ ∀ pv ∈ ps.zip theta,
          pv.1.bounds.1 ≤ pv.2 ∧ pv.2 ≤ pv.1.bounds.2 :=
        fun hc => h (key.mpr hc)
      push_neg at h2
      obtain ⟨pv, hmem, hv⟩ := h2
      refine ⟨pv, hmem, ?_⟩
      by_cases hle : pv.1.bounds.1 ≤ pv.2
      · exact Or.inr (hv hle)
      · exact Or.inl (not_le.mp hle)
  · intro hall
    rw [likelihoodCall, if_pos (key.mpr hall)]

/-- Witness for claim C5 at a concrete input: one fit parameter named
`beta` bounded by `[0, 1]`; evaluating at `theta = [1/2]` delegates to
`get_log_likelihood` (here the constant 7) and evaluating at
`theta = [2]` returns negative infinity. -/
theorem likelihood_call_bounds_gate_witness :
    likelihoodCall [⟨"beta", (0, 1), some (1/2), some (1/10)⟩]
        (fun _ => 7) [1/2] = ((7 : ℚ) : WithBot ℚ)
    ∧ likelihoodCall [⟨"beta", (0, 1), some (1/2), some (1/10)⟩]
        (fun _ => 7) [2] = ⊥ := by
  constructor
  · exact (likelihood_call_bounds_gate _ _ _).2
      (by
        rintro pv hpv
        simp only [List.zip_cons_cons, List.zip_nil_right,
          List.mem_singleton] at hpv
        subst hpv
        exact ⟨by norm_num, by norm_num⟩)
  · exact (likelihood_call_bounds_gate _ _ _).1.mpr
      ⟨(⟨"beta", (0, 1), some (1/2), some (1/10)⟩, 2),
        by simp,
        Or.inr (by norm_num)⟩

/-- Multiplying one factor of an elementwise product by a scalar scales
the product. -/
theorem elemMul_map_left (c : ℚ) (a b : List ℚ) :
    elemMul (a.map (· * c)) b = (elemMul a b).map (· * c) := by
  induction a generalizing b with
  | nil => simp [elemMul]
  | cons x xs ih =>
    cases b with
    | nil => simp [elemMul]
    | cons y ys =>
      simp only [elemMul, List.map_cons, List.zipWith_cons_cons] at ih ⊢
      rw [ih]
      simp [mul_right_comm]

/-- Summing a list scaled by a scalar scales the sum. -/
theorem sum_map_mul_right (c : ℚ) (l : List ℚ) :
    (l.map (· * c)).sum = l.sum * c := by
  induction l with
  | nil => simp
  | cons x xs ih => simp [ih, add_mul]

/-- Scaling `p_symptomatic` by a scalar scales `p_dead_net`. -/
theorem pDeadNet_map_left (c : ℚ) (pS pH pC pD : List ℚ) (m : ℚ) :
    pDeadNet (pS.map (· * c)) pH pC pD m
      = (pDeadNet pS pH pC pD m).map (· * c) := by
  unfold pDeadNet
  rw [elemMul_map_left, elemMul_map_left, elemMul_map_left,
    List.map_map, List.map_map]
  congr 1
  funext x
  simp only [Function.comp_apply]
  ring

/-- Claim C6: when `ifr` is supplied (and the pre-rescale weighted sum is
nonzero), the rescaled `p_symptomatic` makes the age-distribution-weighted
sum of `p_symptomatic * p_hospitalized * p_critical * p_dead *
all_dead_multiplier` equal to `ifr`; for a single age group of weight 1
with all other probabilities 1 and `ifr = 0.01`, the rescaled
`p_symptomatic` is exactly `0.01`. -/
theorem ifr_rescale_achieves_target (ad pS pH pC pD : List ℚ) (m v : ℚ)
    (hW : ifrWeightedSum ad pS pH pC pD m ≠ 0) :
    ifrWeightedSum ad (ifrRescale (some v) ad pS pH pC pD m) pH pC pD m = v
    ∧ ifrRescale (some (1/100)) [1] [1] [1] [1] [1] 1 = [1/100] := by
  constructor
  · show ifrWeightedSum ad
      (pS.map (· * (v / ifrWeightedSum ad pS pH pC pD m))) pH pC pD m = v
    rw [ifrWeightedSum, pDeadNet_map_left, elemMul_map_left,
      sum_map_mul_right]
    rw [show (elemMul (pDeadNet pS pH pC pD m) ad).sum
        = ifrWeightedSum ad pS pH pC pD m from rfl]
    rw [mul_comm, div_mul_cancel₀ _ hW]
  · norm_num [ifrRescale, ifrWeightedSum, pDeadNet, elemMul]

/-- Witness for claim C6 at the concrete input of the claim: one age
group of weight 1, all downstream probabilities 1, `ifr = 0.01`. -/
theorem ifr_rescale_achieves_target_witness :
    ifrWeightedSum [1] (ifrRescale (some (1/100)) [1] [1] [1] [1] [1] 1)
      [1] [1] [1] 1 = 1/100
    ∧ ifrRescale (some (1/100)) [1] [1] [1] [1] [1] 1 = [1/100] :=
  ifr_rescale_achieves_target [1] [1] [1] [1] [1] 1 (1/100)
    (by norm_num [ifrWeightedSum, pDeadNet, elemMul])

/-- Claim C7: the cascade validation accepts exactly when each stage's
population-weighted cumulative-product sum does not exceed the previous
stage's, and the first violated stage is reported by name; with
`age_distribution = [1]`, `p_symptomatic = [1/2]` and `ifr = 3/2` the
back-solved `p_symptomatic` is `3/2 > 1` and the check reports
`p_symptomatic is too large`. However, as the code actually executes,
`SEIRPlusPlusSimulation.__init__` fails at the import of
`InvalidParametersError` (claim C2) before the cascade check can raise. -/
theorem seirpp_cascade_check_behavior :
    (∀ ad pS pH pC pD : List ℚ,
      cascadeCheck ad pS pH pC pD = Except.ok ()
        ↔ ((elemMul ad pS).sum ≤ ad.sum
           ∧ (elemMul (elemMul ad pS) pH).sum ≤ (elemMul ad pS).sum
           ∧ (elemMul (elemMul (elemMul ad pS) pH) pC).sum
               ≤ (elemMul (elemMul ad pS) pH).sum
           ∧ (elemMul (elemMul (elemMul (elemMul ad pS) pH) pC) pD).sum
               ≤ (elemMul (elemMul (elemMul ad pS) pH) pC).sum))
    ∧ (∀ ad pS pH pC pD : List ℚ, ad.sum < (elemMul ad pS).sum →
        cascadeCheck ad pS pH pC pD
          = Except.error "p_symptomatic is too large")
    ∧ seirppInitProbabilities [1] [1/2] [1] [1] [1] 1 (some (3/2))
        = Except.error "p_symptomatic is too large"
    ∧ seirppInitFull [1] [1/2] [1] [1] [1] 1 (some (3/2))
        = Except.error importInvalidParametersErrorMsg := by
  refine ⟨?_, ?_, ?_, rfl⟩
  · intro ad pS pH pC pD
    unfold cascadeCheck
    split_ifs with h1 h2 h3 h4
    · exact iff_of_false (by simp)
        (fun hc => absurd h1 (not_lt.mpr hc.1))
    · exact iff_of_false (by simp)
        (fun hc => absurd h2 (not_lt.mpr hc.2.1))
    · exact iff_of_false (by simp)
        (fun hc => absurd h3 (not_lt.mpr hc.2.2.1))
    · exact iff_of_false (by simp)
        (fun hc => absurd h4 (not_lt.mpr hc.2.2.2))
    · exact iff_of_true rfl
        ⟨not_lt.mp h1, not_lt.mp h2, not_lt.mp h3, not_lt.mp h4⟩
  · intro ad pS pH pC pD h
    unfold cascadeCheck
    rw [if_pos h]
  · norm_num [seirppInitProbabilities, cascadeCheck, ifrRescale,
      ifrWeightedSum, pDeadNet, elemMul]

/-- Claim C8: for a single age group with
`total_population = S0 + I0`, one invocation of the base renewal-equation
step with `r0 = 0` produces zero new infections and leaves the
susceptible compartment unchanged, for every mitigation function,
seasonal-forcing configuration, serial-interval kernel, infection
history, time, step index and step size `dt > 0`. -/
theorem step_zero_r0_no_infections (S0 I0 : ℝ) (mitigation : ℝ → ℝ)
    (amp peakDay : ℝ) (serialPdf : List ℝ) (hist : List ℝ) (t : ℝ)
    (count : ℕ) (dt : ℝ) (hdt : 0 < dt) (hpop : 0 < S0 + I0) :
    stepNewInfected 0 mitigation amp peakDay serialPdf (S0 + I0)
      [hist] [S0] t count dt = [0]
    ∧ stepNewSusceptible 0 mitigation amp peakDay serialPdf (S0 + I0)
      [hist] [S0] t count dt = [S0] := by
  constructor
  · simp [stepNewInfected, zero_mul, mul_zero, zero_div]
  · simp [stepNewSusceptible, stepNewInfected, zero_mul, mul_zero,
      zero_div, sub_zero]

/-- Witness for claim C8 at a concrete input: one age group with
`S0 = 90`, `I0 = 10`, identity mitigation, default seasonal amplitude
`0.2` and peak day `15`, serial kernel `[1]`, history `[10]`, `dt = 1`. -/
theorem step_zero_r0_no_infections_witness :
    stepNewInfected 0 (fun _ => 1) (1/5) 15 [1] ((90 : ℝ) + 10)
      [[10]] [90] 0 1 1 = [0]
    ∧ stepNewSusceptible 0 (fun _ => 1) (1/5) 15 [1] ((90 : ℝ) + 10)
      [[10]] [90] 0 1 1 = [90] :=
  step_zero_r0_no_infections 90 10 (fun _ => 1) (1/5) 15 [1] [10] 0 1 1
    (by norm_num) (by norm_num)

/-- Claim C9: the seasonal forcing multiplier equals
`1 + seasonal_forcing_amp * cos(2 * pi * (t - peak_day) / 365)` for every
time; its value at `t = peak_day` is `1 + seasonal_forcing_amp` (the
maximum, for a nonnegative amplitude) for every `peak_day`, and it is
365-periodic at the peak. -/
theorem seasonal_forcing_properties (amp peakDay : ℝ) :
    (∀ t, seasonal_forcing amp peakDay t
        = 1 + amp * Real.cos (2 * Real.pi * (t - peakDay) / 365))
    ∧ seasonal_forcing amp peakDay peakDay = 1 + amp
    ∧ seasonal_forcing amp peakDay (peakDay + 365)
        = seasonal_forcing amp peakDay peakDay
    ∧ (0 ≤ amp → ∀ t, seasonal_forcing amp peakDay t
        ≤ seasonal_forcing amp peakDay peakDay) := by
  have hpeak : seasonal_forcing amp peakDay peakDay = 1 + amp := by
    unfold seasonal_forcing
    rw [sub_self, mul_zero, zero_div, Real.cos_zero, mul_one]
  refine ⟨fun t => rfl, hpeak, ?_, ?_⟩
  · rw [hpeak]
    unfold seasonal_forcing
    rw [show 2 * Real.pi * (peakDay + 365 - peakDay) / 365
        = 2 * Real.pi by ring]
    rw [Real.cos_two_pi, mul_one]
  · intro hamp t
    rw [hpeak]
    unfold seasonal_forcing
    have hc := Real.cos_le_one (2 * Real.pi * (t - peakDay) / 365)
    have hm := mul_le_mul_of_nonneg_left hc hamp
    linarith

/-- Witness for claim C9 at a concrete input: the default amplitude
`0.2` and peak day `15`, with the maximality conjunct evaluated at
`t = 100`. -/
theorem seasonal_forcing_properties_witness :
    seasonal_forcing (1/5) 15 15 = 1 + 1/5
    ∧ seasonal_forcing (1/5) 15 (15 + 365) = seasonal_forcing (1/5) 15 15
    ∧ seasonal_forcing (1/5) 15 100 ≤ seasonal_forcing (1/5) 15 15 := by
  obtain ⟨-, h1, h2, h3⟩ := seasonal_forcing_properties (1/5) 15
  exact ⟨h1, h2, h3 (by norm_num) 100⟩

/-- Claim C10: the default comparison norm equals
`-1/2 * sum((log a - log b)^2)`, vanishes on equal arrays, and is
symmetric. (Both identities hold for all real arrays, in particular for
positive ones.) -/
theorem l2_log_norm_properties (a b : List ℝ) :
    (l2_log_norm a b = -(1/2)
        * ((List.zipWith (fun x y => (Real.log x - Real.log y)^2) a b).sum))
    ∧ l2_log_norm a a = 0
    ∧ l2_log_norm a b = l2_log_norm b a := by
  refine ⟨rfl, ?_, ?_⟩
  · unfold l2_log_norm
    rw [List.zipWith_same (fun x y => (Real.log x - Real.log y)^2) a]
    simp
  · unfold l2_log_norm
    rw [List.zipWith_comm (fun x y => (Real.log x - Real.log y)^2) a b]
    have hfun : (fun (x y : ℝ) => (Real.log y - Real.log x)^2)
        = (fun (x y : ℝ) => (Real.log x - Real.log y)^2) := by
      funext u v
      ring
    rw [hfun]

/-- Claim C3 describes a round trip the code cannot perform: writing
fit parameters `[SampleParameter("beta", (0,1), 0.5, 0.1)]` (with fixed
values `{"r0": 3.2}`) fails with `AttributeError` because the write path
evaluates `par.sigma` and `SampleParameter.__init__` never sets `sigma`;
and even on a file holding the five stored arrays, the read property
calls `SampleParameter` with five positional arguments although its
constructor accepts only four, failing with `TypeError`. Storing fixed
values alone does succeed. -/
theorem hdf_fit_parameters_roundtrip_fails :
    hdfBackendInit (some [("r0", 16/5)])
        (some [⟨"beta", (0, 1), some (1/2), some (1/10)⟩])
      = Except.error "AttributeError: sigma"
    ∧ hdfReadFitParameters
        ⟨["beta"], [(0, 1)], [PyFloat.val (1/2)], [PyFloat.val (1/10)],
         [PyFloat.nan]⟩
      = Except.error "TypeError: SampleParameter takes 4 arguments"
    ∧ hdfBackendInit (some [("r0", 16/5)]) none
      = Except.ok ⟨some [("r0", 16/5)], none⟩ := by
  refine ⟨rfl, rfl, rfl⟩
